import Mathlib

/-!
# ardu_usb: a shallow embedding of `src/ardu_usb.c`

The driver is modelled by explicit state passing.  Kernel collaborators whose
code is not part of the driver (`usb_find_interface`, `usb_get_intfdata`,
`usb_autopm_get_interface`, `copy_from_user`, `copy_to_user`, the registration
calls of module initialisation) appear as state fields or as outcome
arguments; everything the driver itself does is a Lean function.
-/

namespace ArduUsb

/-! ## Constants -/

/-- Size in bytes of the driver buffer (`#define MEM_SIZ 1024`). -/
def MEM_SIZ : Nat := 1024

/-- Linux errno value of ENODEV. -/
def ENODEV : Int := 19

/-! ## Device objects, interfaces and open files -/

/-- Address of a `struct ardu_usb` object. -/
abbrev DevPtr := Nat

/-- Address of a `struct usb_interface`. -/
abbrev IntfPtr := Nat

/-- The part of the kernel state the file operations read and write. -/
structure Kernel where
  /-- Result of `usb_find_interface(&ardu_usb_driver, minor)`; `none` is NULL. -/
  find_interface : Nat → Option IntfPtr
  /-- Result of `usb_get_intfdata(interface)`; `none` is NULL. -/
  intfdata : IntfPtr → Option DevPtr
  /-- Value of `dev->kref` for every device object. -/
  kref : DevPtr → Nat
  /-- Device objects on which `ardu_delete` has run, oldest first. -/
  deleted : List DevPtr

/-- The `struct file` fields the driver touches. -/
structure File where
  private_data : Option DevPtr
deriving DecidableEq, Repr

/-- Model of `kref_get(&dev->kref)`: the counter of `dev` goes up by one.  The
counter is a natural number; the saturation the kernel applies to a counter
near the top of its 32-bit range is outside the driver and not modelled. -/
def kref_get (k : Kernel) (dev : DevPtr) : Kernel :=
  { k with kref := fun d => if d = dev then k.kref d + 1 else k.kref d }

/-- Body of `ardu_delete`: the object is torn down (urb, interface and device
references dropped, buffer and object freed), recorded in `deleted`. -/
def ardu_delete (k : Kernel) (dev : DevPtr) : Kernel :=
  { k with deleted := k.deleted ++ [dev] }

/-- Body of `ardu_open`.  `pm` is the value `usb_autopm_get_interface` returns
when it is called. -/
def ardu_open (k : Kernel) (pm : Int) (subminor : Nat) (file : File) :
    Int × Kernel × File :=
  match k.find_interface subminor with
  | none => (-ENODEV, k, file)
  | some interface =>
    match k.intfdata interface with
    | none => (-ENODEV, k, file)
    | some dev =>
      let retval := pm
      if retval ≠ 0 then (retval, k, file)
      else (retval, kref_get k dev, { file with private_data := some dev })

/-- Body of `ardu_release`: it logs and returns 0; neither the kernel state nor
the file is touched. -/
def ardu_release (k : Kernel) (file : File) : Int × Kernel × File :=
  (0, k, file)

/-! ## Attach and detach -/

/-- Fields of `struct usb_endpoint_descriptor` printed by the probe. -/
structure usb_endpoint_descriptor where
  bLength : Nat
  bDescriptorType : Nat
  bEndpointAddress : Nat
  bmAttributes : Nat
  wMaxPacketSize : Nat
  bInterval : Nat
deriving DecidableEq, Repr

/-- Fields of `struct usb_interface_descriptor` printed by the probe. -/
structure usb_interface_descriptor where
  bLength : Nat
  bDescriptorType : Nat
  bInterfaceNumber : Nat
  bAlternateSetting : Nat
  bNumEndpoints : Nat
  bInterfaceClass : Nat
  bInterfaceSubClass : Nat
  bInterfaceProtocol : Nat
  iInterface : Nat
deriving DecidableEq, Repr

/-- Current alternate setting: `struct usb_host_interface`. -/
structure usb_host_interface where
  desc : usb_interface_descriptor
  endpoint : List usb_endpoint_descriptor
deriving DecidableEq, Repr

/-- The `struct usb_interface` handed to probe and disconnect. -/
structure usb_interface where
  cur_altsetting : usb_host_interface
deriving DecidableEq, Repr

/-- Matched table entry: `struct usb_device_id`. -/
structure usb_device_id where
  idVendor : Nat
  idProduct : Nat
deriving DecidableEq, Repr

/-- One block of diagnostic output. -/
inductive LogLine where
  | probed (idVendor idProduct : Nat)
  | interface_descriptor (d : usb_interface_descriptor)
  | endpoint_descriptor (e : usb_endpoint_descriptor)
  | disconnected
deriving DecidableEq, Repr

/-- Test `usb_endpoint_is_bulk_in` of `linux/usb/ch9.h`: direction bit 0x80 set
and transfer type (low two bits of bmAttributes) equal to 2. -/
def usb_endpoint_is_bulk_in (e : usb_endpoint_descriptor) : Bool :=
  (e.bEndpointAddress &&& 0x80 == 0x80) && (e.bmAttributes &&& 0x03 == 0x02)

/-- Whether the current alternate setting exposes a bulk-in endpoint among its
`bNumEndpoints` endpoints. -/
def has_bulk_in (interface : usb_interface) : Bool :=
  (interface.cur_altsetting.endpoint.take
    interface.cur_altsetting.desc.bNumEndpoints).any usb_endpoint_is_bulk_in

/-- Body of `ardu_usb_probe`: prints the match, the interface descriptor and
the descriptor of `endpoint[i]` for every `i < bNumEndpoints`, then returns 0.
The USB core hands over interfaces whose `bNumEndpoints` (a `__u8`) is the
length of the `endpoint` array; for a larger `bNumEndpoints` the C loop reads
past the array, which has no counterpart here: the missing entries are left
out of the output.  The return value does not depend on any of this. -/
def ardu_usb_probe (interface : usb_interface) (id : usb_device_id) :
    Int × List LogLine :=
  let iface_desc := interface.cur_altsetting
  let endpoints_count := iface_desc.desc.bNumEndpoints
  (0,
    LogLine.probed id.idVendor id.idProduct
      :: LogLine.interface_descriptor iface_desc.desc
      :: (List.range endpoints_count).filterMap
          (fun i => (iface_desc.endpoint[i]?).map LogLine.endpoint_descriptor))

/-- Body of `ardu_usb_disconnect`: one line of diagnostic output. -/
def ardu_usb_disconnect (_interface : usb_interface) : List LogLine :=
  [LogLine.disconnected]

/-! ## Lifecycle traces -/

/-- One driver entry point being called on the device. -/
inductive Event where
  | attach (interface : usb_interface) (id : usb_device_id)
  | openFile (pm : Int) (subminor : Nat)
  | closeFile
  | detach (interface : usb_interface)
deriving DecidableEq, Repr

/-- A `struct file` as the VFS hands it to `open`: no private data yet. -/
def file_fresh : File := { private_data := none }

/-- Kernel state, the file of the session, and the diagnostic output so far. -/
structure World where
  kernel : Kernel
  file : File
  log : List LogLine

/-- Effect of one event.  Probe and disconnect only add diagnostic output;
open runs on a fresh file, close on the file of the session. -/
def step (w : World) : Event → World
  | Event.attach interface id =>
    { w with log := w.log ++ (ardu_usb_probe interface id).2 }
  | Event.openFile pm subminor =>
    let r := ardu_open w.kernel pm subminor file_fresh
    { w with kernel := r.2.1, file := r.2.2 }
  | Event.closeFile =>
    let r := ardu_release w.kernel w.file
    { w with kernel := r.2.1, file := r.2.2 }
  | Event.detach interface =>
    { w with log := w.log ++ ardu_usb_disconnect interface }

/-- Effect of a sequence of events, first to last. -/
def run (w : World) (evs : List Event) : World :=
  evs.foldl step w

/-- Number of times `ardu_delete` has run on `dev`. -/
def teardowns (k : Kernel) (dev : DevPtr) : Nat :=
  k.deleted.count dev

/-! ## Read and write through the driver buffer -/

/-- One byte of memory. -/
abbrev Byte := Fin 256

/-- Memory seen from a base pointer: the byte at every offset from it.  For the
driver buffer `kbuf` the offsets below `MEM_SIZ` are the allocation made by
`kmalloc(MEM_SIZ, GFP_KERNEL)`; larger offsets are memory past its end. -/
abbrev Memory := Nat → Byte

/-- Model of `copy_from_user(dst, src, n)`.  `uncopied` is its return value, the
number of trailing bytes that could not be read; the kernel pads those with
zero bytes up to the requested size. -/
def copy_from_user (dst src : Memory) (n uncopied : Nat) : Nat × Memory :=
  (uncopied, fun i => if i < n - uncopied then src i else if i < n then 0 else dst i)

/-- Model of `copy_to_user(dst, src, n)`.  `uncopied` is its return value, the
number of trailing bytes that could not be stored. -/
def copy_to_user (dst src : Memory) (n uncopied : Nat) : Nat × Memory :=
  (uncopied, fun i => if i < n - uncopied then src i else dst i)

/-- Conversion of a `size_t` to the `ssize_t` the file operations return. -/
def ssize_of (n : Nat) : Int :=
  if n % 2 ^ 64 < 2 ^ 63 then ((n % 2 ^ 64 : Nat) : Int)
  else ((n % 2 ^ 64 : Nat) : Int) - 2 ^ 64

/-- Body of `ardu_read`: `MEM_SIZ` bytes of `kbuf` go to the user buffer and
`MEM_SIZ` is returned; `len` is not consulted and a failed copy is only
logged.  The result is the return value and the user buffer afterwards. -/
def ardu_read (kbuf buf : Memory) (_len : Nat) (uncopied : Nat) : Int × Memory :=
  let c := copy_to_user buf kbuf MEM_SIZ uncopied
  (ssize_of MEM_SIZ, c.2)

/-- Body of `ardu_write`: `len` bytes of the user buffer go to `kbuf` and `len`
is returned; a failed copy is only logged.  The result is the return value and
the memory at `kbuf` afterwards. -/
def ardu_write (kbuf buf : Memory) (len : Nat) (uncopied : Nat) : Int × Memory :=
  let c := copy_from_user kbuf buf len uncopied
  (ssize_of len, c.2)

/-- User memory holding the bytes `b` at its start and `rest` after them. -/
def user_bytes (b : List Byte) (rest : Memory) : Memory :=
  fun i => if h : i < b.length then b.get ⟨i, h⟩ else rest i

/-- The first `n` bytes of a memory. -/
def bytes_at (m : Memory) (n : Nat) : List Byte :=
  (List.range n).map m

/-! ## Module initialisation and exit -/

/-- The registrations and allocations made by `ardu_usb_init`. -/
inductive Resource where
  | usb_driver
  | chrdev_region
  | cdev
  | dev_class
  | device
  | kbuf
deriving DecidableEq, Repr

/-- Outcome of each fallible step of `ardu_usb_init`; `true` means the call
succeeds. -/
structure InitOutcomes where
  usb_register : Bool
  register_chrdev_region : Bool
  cdev_add : Bool
  class_create : Bool
  device_create : Bool
  kmalloc : Bool
deriving DecidableEq, Repr

/-- Label `err_class`: `unregister_chrdev_region(dev, 1)` and return -1. -/
def err_class (held : List Resource) : Int × List Resource :=
  (-1, held.erase Resource.chrdev_region)

/-- Label `err_device`: `class_destroy(dev_class)`, then `err_class`. -/
def err_device (held : List Resource) : Int × List Resource :=
  err_class (held.erase Resource.dev_class)

/-- Label `err_alloc`: `device_destroy(dev_class, dev)`, then `err_device`. -/
def err_alloc (held : List Resource) : Int × List Resource :=
  err_device (held.erase Resource.device)

/-- Body of `ardu_usb_init`.  `held` lists the resources currently held, most
recent first; the result is the return value and the resources held after. -/
def ardu_usb_init (o : InitOutcomes) (held : List Resource) : Int × List Resource :=
  if !o.usb_register then (-1, held)
  else
    let held := Resource.usb_driver :: held
    if !o.register_chrdev_region then (-1, held)
    else
      let held := Resource.chrdev_region :: held
      if !o.cdev_add then err_class held
      else
        let held := Resource.cdev :: held
        if !o.class_create then err_class held
        else
          let held := Resource.dev_class :: held
          if !o.device_create then err_device held
          else
            let held := Resource.device :: held
            if !o.kmalloc then err_alloc held
            else (0, Resource.kbuf :: held)

/-- The releases of `ardu_usb_exit`, in program order. -/
def exit_releases : List Resource :=
  [Resource.usb_driver, Resource.kbuf, Resource.device, Resource.dev_class,
   Resource.cdev, Resource.chrdev_region]

/-- Body of `ardu_usb_exit`: every release of `exit_releases` is applied to the
resources held. -/
def ardu_usb_exit (held : List Resource) : List Resource :=
  exit_releases.foldl (fun h r => h.erase r) held

/-! ## Concrete states used in the evaluations -/

/-- No interface is bound to any minor; no device object exists. -/
def kernel_empty : Kernel :=
  { find_interface := fun _ => none
    intfdata := fun _ => none
    kref := fun _ => 0
    deleted := [] }

/-- Minor 0 resolves to interface 1, which carries device object 7 whose
counter is `n`. -/
def kernel_bound (n : Nat) : Kernel :=
  { find_interface := fun m => if m = 0 then some 1 else none
    intfdata := fun i => if i = 1 then some 7 else none
    kref := fun d => if d = 7 then n else 0
    deleted := [] }

/-- Minor 0 resolves to interface 1, which carries no device object. -/
def kernel_no_intfdata : Kernel :=
  { find_interface := fun m => if m = 0 then some 1 else none
    intfdata := fun _ => none
    kref := fun _ => 0
    deleted := [] }

/-- An interface whose current alternate setting has no endpoints. -/
def interface_no_endpoints : usb_interface :=
  { cur_altsetting :=
      { desc :=
          { bLength := 9, bDescriptorType := 4, bInterfaceNumber := 0,
            bAlternateSetting := 0, bNumEndpoints := 0, bInterfaceClass := 255,
            bInterfaceSubClass := 0, bInterfaceProtocol := 0, iInterface := 0 }
        endpoint := [] } }

/-- An interface with a single interrupt-in endpoint (address 0x82, type 3). -/
def interface_interrupt_only : usb_interface :=
  { cur_altsetting :=
      { desc :=
          { bLength := 9, bDescriptorType := 4, bInterfaceNumber := 0,
            bAlternateSetting := 0, bNumEndpoints := 1, bInterfaceClass := 2,
            bInterfaceSubClass := 2, bInterfaceProtocol := 1, iInterface := 0 }
        endpoint :=
          [{ bLength := 7, bDescriptorType := 5, bEndpointAddress := 0x82,
             bmAttributes := 3, wMaxPacketSize := 8, bInterval := 255 }] } }

/-- The table entry of the driver: vendor 0x2341, product 0x0043. -/
def ardu_usb_table_entry : usb_device_id :=
  { idVendor := 0x2341, idProduct := 0x0043 }

/-- The driver buffer right after `memset(kbuf, 0, MEM_SIZ)`, with zero bytes
past its end as well. -/
def kbuf_zero : Memory := fun _ => 0

/-- A user buffer filled with the byte 0xFF. -/
def user_ff : Memory := fun _ => 255

/-- A user buffer filled with zero bytes. -/
def user_zero : Memory := fun _ => 0

/-- A driver buffer filled with the byte 0xAA. -/
def kbuf_aa : Memory := fun _ => 170

/-- All steps of initialisation succeed. -/
def outcomes_ok : InitOutcomes :=
  { usb_register := true, register_chrdev_region := true, cdev_add := true,
    class_create := true, device_create := true, kmalloc := true }

/-- Initialisation in which `register_chrdev_region` fails. -/
def outcomes_region_fails : InitOutcomes :=
  { outcomes_ok with register_chrdev_region := false }

/-- Initialisation in which `kmalloc` fails. -/
def outcomes_kmalloc_fails : InitOutcomes :=
  { outcomes_ok with kmalloc := false }

/-! ## Shared lemmas -/

/-- An open never runs `ardu_delete`. -/
theorem ardu_open_deleted (k : Kernel) (pm : Int) (subminor : Nat) (file : File) :
    (ardu_open k pm subminor file).2.1.deleted = k.deleted := by
  unfold ardu_open
  split
  · rfl
  · split
    · rfl
    · by_cases hp : pm = 0 <;> simp [hp, kref_get]

/-- An open never lowers a reference counter. -/
theorem ardu_open_kref_le (k : Kernel) (pm : Int) (subminor : Nat) (file : File)
    (d : DevPtr) : k.kref d ≤ (ardu_open k pm subminor file).2.1.kref d := by
  unfold ardu_open
  split
  · exact Nat.le_refl _
  · split
    · exact Nat.le_refl _
    · rename_i dev _
      by_cases hp : pm = 0
      · by_cases hd : d = dev <;> simp [hp, kref_get, hd]
      · simp [hp]

/-- No event ever runs `ardu_delete`: the teardown record is the same after any
sequence of events. -/
theorem run_deleted (evs : List Event) (w : World) :
    (run w evs).kernel.deleted = w.kernel.deleted := by
  induction evs generalizing w with
  | nil => rfl
  | cons e es ih =>
    have hs : (step w e).kernel.deleted = w.kernel.deleted := by
      cases e with
      | attach i d => rfl
      | openFile pm subminor => exact ardu_open_deleted w.kernel pm subminor file_fresh
      | closeFile => rfl
      | detach i => rfl
    show (run (step w e) es).kernel.deleted = w.kernel.deleted
    rw [ih, hs]

/-- No event ever lowers a reference counter. -/
theorem run_kref_mono (evs : List Event) (w : World) (d : DevPtr) :
    w.kernel.kref d ≤ (run w evs).kernel.kref d := by
  induction evs generalizing w with
  | nil => exact Nat.le_refl _
  | cons e es ih =>
    have hs : w.kernel.kref d ≤ (step w e).kernel.kref d := by
      cases e with
      | attach i x => exact Nat.le_refl _
      | openFile pm subminor => exact ardu_open_kref_le w.kernel pm subminor file_fresh d
      | closeFile => exact Nat.le_refl _
      | detach i => exact Nat.le_refl _
    show w.kernel.kref d ≤ (run (step w e) es).kernel.kref d
    exact Nat.le_trans hs (ih (step w e))

/-- Reading the entries of a list by index, over all its indices, gives the
list back. -/
theorem filterMap_range_getElem {α β : Type} (f : α → β) (l : List α) :
    (List.range l.length).filterMap (fun i => (l[i]?).map f) = l.map f := by
  induction l with
  | nil => rfl
  | cons a t ih =>
    rw [List.length_cons, List.range_succ_eq_map, List.filterMap_cons,
      List.filterMap_map]
    simpa [Function.comp_def] using ih

/-- On an interface whose `bNumEndpoints` is the length of its endpoint array,
the output of the probe is the match line, the interface descriptor and the
descriptor of every endpoint, in order. -/
theorem ardu_usb_probe_log (interface : usb_interface) (id : usb_device_id)
    (hlen : interface.cur_altsetting.desc.bNumEndpoints
      = interface.cur_altsetting.endpoint.length) :
    (ardu_usb_probe interface id).2 =
      LogLine.probed id.idVendor id.idProduct
        :: LogLine.interface_descriptor interface.cur_altsetting.desc
        :: interface.cur_altsetting.endpoint.map LogLine.endpoint_descriptor := by
  simp only [ardu_usb_probe, hlen, filterMap_range_getElem]

/-- Initialisation returns 0 exactly when every one of its steps succeeds. -/
theorem ardu_usb_init_zero_iff (o : InitOutcomes) (held : List Resource) :
    (ardu_usb_init o held).1 = 0 ↔ o = outcomes_ok := by
  rcases o with ⟨a, b, c, d, e, f⟩
  cases a <;> cases b <;> cases c <;> cases d <;> cases e <;> cases f <;>
    simp [ardu_usb_init, err_alloc, err_device, err_class, outcomes_ok]

/-- Whenever `usb_register` succeeds and initialisation then fails, the usb
driver is still registered when it returns. -/
theorem ardu_usb_init_failure_keeps_driver (o : InitOutcomes)
    (hreg : o.usb_register = true) (hfail : (ardu_usb_init o []).1 ≠ 0) :
    Resource.usb_driver ∈ (ardu_usb_init o []).2 := by
  rcases o with ⟨a, b, c, d, e, f⟩
  cases a <;> cases b <;> cases c <;> cases d <;> cases e <;> cases f <;>
    first
      | (exact absurd hreg (by decide))
      | (exact absurd rfl hfail)
      | decide

/-- When every step of initialisation succeeds, it returns 0 holding the six
resources, and the exit routine releases all of them. -/
theorem init_ok_then_exit :
    ardu_usb_init outcomes_ok [] =
      (0, [Resource.kbuf, Resource.device, Resource.dev_class, Resource.cdev,
           Resource.chrdev_region, Resource.usb_driver]) ∧
    ardu_usb_exit (ardu_usb_init outcomes_ok []).2 = [] ∧
    exit_releases.Nodup ∧ exit_releases.length = 6 := by
  decide

/-! ## Lifecycle -/

/-- C1 (evaluation): no teardown ever runs.  After attach and detach on a
system without a device object, and after attach, a successful open, close and
detach on a system whose device object 7 starts with counter 1, `ardu_delete`
has run zero times, and in the second case the counter is left at 2. -/
theorem lifecycle_never_tears_down :
    teardowns
        (run { kernel := kernel_empty, file := file_fresh, log := [] }
          [Event.attach interface_no_endpoints ardu_usb_table_entry,
           Event.detach interface_no_endpoints]).kernel 7 = 0 ∧
    teardowns
        (run { kernel := kernel_bound 1, file := file_fresh, log := [] }
          [Event.attach interface_no_endpoints ardu_usb_table_entry,
           Event.openFile 0 0, Event.closeFile,
           Event.detach interface_no_endpoints]).kernel 7 = 0 ∧
    (run { kernel := kernel_bound 1, file := file_fresh, log := [] }
          [Event.attach interface_no_endpoints ardu_usb_table_entry,
           Event.openFile 0 0, Event.closeFile,
           Event.detach interface_no_endpoints]).kernel.kref 7 = 2 := by
  refine ⟨?_, ?_, ?_⟩
  · simp [teardowns, run_deleted, kernel_empty]
  · simp [teardowns, run_deleted, kernel_bound]
  · simp [run, step, ardu_open, ardu_release, kernel_bound, kref_get]

/-- C2 (evaluation): `ardu_release` drops no reference.  For a session holding
device object 7 the counter stays at 2 when it was 2, and stays at 1 with no
teardown when it was 1. -/
theorem ardu_release_keeps_reference :
    (ardu_release (kernel_bound 2) { private_data := some 7 }).2.1.kref 7 = 2 ∧
    (ardu_release (kernel_bound 1) { private_data := some 7 }).2.1.kref 7 = 1 ∧
    teardowns (ardu_release (kernel_bound 1) { private_data := some 7 }).2.1 7 = 0 := by
  simp [ardu_release, kernel_bound, teardowns]

/-- C3: when the interface for the minor is found, it carries a device object
and power resume reports success (0), `ardu_open` returns 0, the counter of
that device object is one more than before, every other counter is as before,
and the private data of the file is the device object. -/
theorem ardu_open_success (k : Kernel) (pm : Int) (subminor : Nat) (file : File)
    (interface : IntfPtr) (dev : DevPtr)
    (hfind : k.find_interface subminor = some interface)
    (hdata : k.intfdata interface = some dev)
    (hpm : pm = 0) :
    (ardu_open k pm subminor file).1 = 0 ∧
    (ardu_open k pm subminor file).2.1.kref dev = k.kref dev + 1 ∧
    (∀ d, d ≠ dev → (ardu_open k pm subminor file).2.1.kref d = k.kref d) ∧
    (ardu_open k pm subminor file).2.2.private_data = some dev := by
  subst hpm
  simp only [ardu_open, hfind, hdata]
  refine ⟨by simp, by simp [kref_get], ?_, by simp⟩
  intro d hd
  simp [kref_get, hd]

/-- Witness of C3: minor 0 bound to interface 1 carrying device object 7 with
counter 1. -/
theorem ardu_open_success_witness :
    (ardu_open (kernel_bound 1) 0 0 file_fresh).1 = 0 ∧
    (ardu_open (kernel_bound 1) 0 0 file_fresh).2.1.kref 7 = (kernel_bound 1).kref 7 + 1 ∧
    (∀ d, d ≠ 7 →
      (ardu_open (kernel_bound 1) 0 0 file_fresh).2.1.kref d = (kernel_bound 1).kref d) ∧
    (ardu_open (kernel_bound 1) 0 0 file_fresh).2.2.private_data = some 7 :=
  ardu_open_success (kernel_bound 1) 0 0 file_fresh 1 7 (by simp [kernel_bound])
    (by simp [kernel_bound]) rfl

/-- C4: when no interface is found for the minor, or the interface found
carries no device object, `ardu_open` returns -ENODEV for every power-resume
outcome, and the kernel state (every counter included) and the file (its
private data included) are the ones passed in. -/
theorem ardu_open_no_device (k : Kernel) (pm : Int) (subminor : Nat) (file : File)
    (h : k.find_interface subminor = none ∨
      ∃ interface, k.find_interface subminor = some interface ∧
        k.intfdata interface = none) :
    (ardu_open k pm subminor file).1 = -ENODEV ∧
    (ardu_open k pm subminor file).2.1.kref = k.kref ∧
    (ardu_open k pm subminor file).2.1.deleted = k.deleted ∧
    (ardu_open k pm subminor file).2.2.private_data = file.private_data := by
  rcases h with h | ⟨interface, hfind, hdata⟩
  · simp [ardu_open, h]
  · simp [ardu_open, hfind, hdata]

/-- Witness of C4: both ways of having no device, at minor 0 and at minor 1. -/
theorem ardu_open_no_device_witness :
    ((ardu_open kernel_no_intfdata 0 0 file_fresh).1 = -ENODEV ∧
      (ardu_open kernel_no_intfdata 0 0 file_fresh).2.1.kref = kernel_no_intfdata.kref ∧
      (ardu_open kernel_no_intfdata 0 0 file_fresh).2.1.deleted = kernel_no_intfdata.deleted ∧
      (ardu_open kernel_no_intfdata 0 0 file_fresh).2.2.private_data
        = file_fresh.private_data) ∧
    ((ardu_open (kernel_bound 1) 0 1 file_fresh).1 = -ENODEV ∧
      (ardu_open (kernel_bound 1) 0 1 file_fresh).2.1.kref = (kernel_bound 1).kref ∧
      (ardu_open (kernel_bound 1) 0 1 file_fresh).2.1.deleted = (kernel_bound 1).deleted ∧
      (ardu_open (kernel_bound 1) 0 1 file_fresh).2.2.private_data
        = file_fresh.private_data) :=
  ⟨ardu_open_no_device kernel_no_intfdata 0 0 file_fresh
      (Or.inr ⟨1, by simp [kernel_no_intfdata], by simp [kernel_no_intfdata]⟩),
   ardu_open_no_device (kernel_bound 1) 0 1 file_fresh
      (Or.inl (by simp [kernel_bound]))⟩

/-- C5: when the device object is found and power resume returns a non-zero
code, `ardu_open` returns that code, every counter (the one of the device
object included) has the value it had before the call, and the private data of
the file is what it was before the call. -/
theorem ardu_open_resume_failure (k : Kernel) (pm : Int) (subminor : Nat) (file : File)
    (interface : IntfPtr) (dev : DevPtr)
    (hfind : k.find_interface subminor = some interface)
    (hdata : k.intfdata interface = some dev)
    (hpm : pm ≠ 0) :
    (ardu_open k pm subminor file).1 = pm ∧
    (ardu_open k pm subminor file).2.1.kref dev = k.kref dev ∧
    (ardu_open k pm subminor file).2.1.kref = k.kref ∧
    (ardu_open k pm subminor file).2.2.private_data = file.private_data := by
  simp [ardu_open, hfind, hdata, hpm]

/-- Witness of C5: power resume returns -5 for the device object 7 whose
counter is 1; the file keeps its empty private data. -/
theorem ardu_open_resume_failure_witness :
    (ardu_open (kernel_bound 1) (-5) 0 file_fresh).1 = -5 ∧
    (ardu_open (kernel_bound 1) (-5) 0 file_fresh).2.1.kref 7 = (kernel_bound 1).kref 7 ∧
    (ardu_open (kernel_bound 1) (-5) 0 file_fresh).2.1.kref = (kernel_bound 1).kref ∧
    (ardu_open (kernel_bound 1) (-5) 0 file_fresh).2.2.private_data
      = file_fresh.private_data :=
  ardu_open_resume_failure (kernel_bound 1) (-5) 0 file_fresh 1 7 (by simp [kernel_bound])
    (by simp [kernel_bound]) (by decide)

/-! ## Read and write -/

/-- C6 (evaluation): `ardu_read` called with a maximum length of 100 returns
1024, which is more than 100, and stores the byte of `kbuf` at offset 1023 of
the user buffer; when the copy fails for all 1024 bytes it still returns 1024
although the user buffer is as it was. -/
theorem ardu_read_ignores_len :
    (ardu_read kbuf_aa user_zero 100 0).1 = 1024 ∧
    ¬ ((ardu_read kbuf_aa user_zero 100 0).1 ≤ 100) ∧
    (ardu_read kbuf_aa user_zero 100 0).2 1023 = kbuf_aa 1023 ∧
    kbuf_aa 1023 ≠ user_zero 1023 ∧
    (ardu_read kbuf_aa user_zero 100 1024).1 = 1024 ∧
    (ardu_read kbuf_aa user_zero 100 1024).2 0 = user_zero 0 := by
  refine ⟨?_, ?_, ?_, ?_, ?_, ?_⟩ <;>
    simp [ardu_read, copy_to_user, ssize_of, MEM_SIZ, kbuf_aa, user_zero]

/-- C7: for a byte sequence `b` of length at most `MEM_SIZ`, a write of `b`
whose copy succeeds returns the length of `b`, and a following read whose copy
succeeds (whatever length it asks for) leaves exactly `b`, in order, in the
first bytes of its user buffer. -/
theorem write_then_read_roundtrip (b : List Byte) (rest kbuf buf : Memory) (len : Nat)
    (hN : b.length ≤ MEM_SIZ) :
    (ardu_write kbuf (user_bytes b rest) b.length 0).1 = (b.length : Int) ∧
    bytes_at
      (ardu_read (ardu_write kbuf (user_bytes b rest) b.length 0).2 buf len 0).2
      b.length = b := by
  constructor
  · have h1 : b.length % 2 ^ 64 = b.length :=
      Nat.mod_eq_of_lt (by simp only [MEM_SIZ] at hN; omega)
    have h2 : b.length < 2 ^ 63 := by simp only [MEM_SIZ] at hN; omega
    show ssize_of b.length = (b.length : Int)
    unfold ssize_of
    rw [h1, if_pos h2]
  · apply List.ext_getElem
    · simp [bytes_at]
    · intro i h1 h2
      have hi : i < b.length := by simpa [bytes_at] using h1
      have hi2 : i < MEM_SIZ := Nat.lt_of_lt_of_le hi hN
      simp [bytes_at, ardu_read, ardu_write, copy_to_user, copy_from_user,
        user_bytes, hi, hi2]

/-- Witness of C7: the three bytes 1, 2, 3 written over an 0xAA buffer and read
back into a zeroed user buffer with a read of length 3. -/
theorem write_then_read_roundtrip_witness :
    ([1, 2, 3] : List Byte).length ≤ MEM_SIZ ∧
    (ardu_write kbuf_aa (user_bytes [1, 2, 3] user_ff) 3 0).1 = 3 ∧
    bytes_at
      (ardu_read (ardu_write kbuf_aa (user_bytes [1, 2, 3] user_ff) 3 0).2
        user_zero 3 0).2 3 = [1, 2, 3] :=
  ⟨by decide,
   write_then_read_roundtrip [1, 2, 3] user_ff kbuf_aa user_zero 3 (by decide)⟩

/-- C9 (evaluation): a write of 1025 bytes of 0xFF stores a byte at offset 1024
of `kbuf`, the first offset past the `MEM_SIZ` bytes allocated for it. -/
theorem ardu_write_past_kbuf :
    MEM_SIZ = 1024 ∧
    kbuf_zero 1024 = 0 ∧
    (ardu_write kbuf_zero user_ff 1025 0).2 1024 = 255 := by
  refine ⟨rfl, rfl, ?_⟩
  simp [ardu_write, copy_from_user, user_ff]

/-! ## Attach -/

/-- C8 (counterexample): an interface without endpoints and an interface with
only an interrupt-in endpoint expose no bulk-in endpoint, and the probe
returns 0 for both. -/
theorem ardu_usb_probe_accepts_no_bulk_in :
    has_bulk_in interface_no_endpoints = false ∧
    (ardu_usb_probe interface_no_endpoints ardu_usb_table_entry).1 = 0 ∧
    has_bulk_in interface_interrupt_only = false ∧
    (ardu_usb_probe interface_interrupt_only ardu_usb_table_entry).1 = 0 := by
  decide

/-- C8 (amended): for every interface and table entry the probe returns 0
(success), whether or not the current alternate setting exposes a bulk-in
endpoint, the case of no endpoints included; it never returns a non-zero
error. -/
theorem ardu_usb_probe_always_succeeds (interface : usb_interface) (id : usb_device_id) :
    (ardu_usb_probe interface id).1 = 0 := by
  simp [ardu_usb_probe]

/-! ## Module initialisation -/

/-- C10 (evaluation): starting with nothing held, an initialisation in which
`register_chrdev_region` fails returns -1 with the usb driver still
registered, and one in which `kmalloc` fails returns -1 with the usb driver and
the character device still held. -/
theorem ardu_usb_init_failure_leaks :
    ardu_usb_init outcomes_region_fails [] = (-1, [Resource.usb_driver]) ∧
    ardu_usb_init outcomes_kmalloc_fails [] =
      (-1, [Resource.cdev, Resource.usb_driver]) := by
  decide

end ArduUsb
